import Mathlib

/-!
Verification of the qiita natural-language study-search pipeline.

This file shallowly embeds the two source files of the repository:

* `src/ezredbiom/LLM.py` — the query-translation and safe-execution
  pipeline (`search_studies_with_sql`, `llm_query_to_sql`,
  `smart_search_studies`);
* `src/qiita_pet/handlers/api_proxy/custom_study_api.py` — the
  per-study lookup handlers.

External collaborators (the language-model endpoint, the `json` module's
decode step, the relational store, the `qiita_db.Study` registry and the
Python `str` builtin) are modelled as explicit parameters or as small
faithful Lean functions; where a definition models behaviour that is not
itself in the source tree, its doc comment says so.
-/

/-- A parsed JSON value, as produced by Python's `json.loads`.
Numbers are modelled as integers (no claim involves JSON floats). -/
inductive Json where
  | null
  | bool (b : Bool)
  | num (n : Int)
  | str (s : String)
  | arr (elems : List Json)
  | obj (fields : List (String × Json))

/-- Looks up a key in a parsed-JSON object's field list (Python dict
subscript on the dicts produced by `json.loads`; the claims never use
duplicate keys). -/
def lookupField : List (String × Json) → String → Option Json
  | [], _ => none
  | (k, v) :: rest, key => if k = key then some v else lookupField rest key

/-- Python exceptions that can escape the orchestrator in `LLM.py`:
the remote model call raising (network/timeout/auth), a dict subscript
with a missing key (`KeyError`), or subscripting a non-dict
(`TypeError`). -/
inductive PyError where
  | remoteError
  | keyError (k : String)
  | typeError
deriving DecidableEq

/-- Python subscript `value[key]` with a string key, as used at
`sql_query['where_clause']` and `sql_query['params']` in the source:
a dict yields the entry or raises `KeyError`; any non-dict raises
`TypeError`. -/
def pySubscript : Json → String → Except PyError Json
  | Json.obj fields, key =>
      match lookupField fields key with
      | some v => Except.ok v
      | none => Except.error (PyError.keyError key)
  | _, _ => Except.error PyError.typeError

/-- Python default string-strip whitespace characters (ASCII subset). -/
def pyIsSpace (c : Char) : Bool :=
  c = ' ' || c = '\t' || c = '\n' || c = '\r' || c = Char.ofNat 11 || c = Char.ofNat 12

/-- Python `str.lower()` restricted to ASCII letters (all strings in the
source and the claims are ASCII). -/
def pyLower (s : String) : String :=
  String.mk (s.data.map Char.toLower)

/-- Python `str.strip()` with no arguments: remove leading and trailing
whitespace. -/
def pyStrip (s : String) : String :=
  String.mk (((s.data.dropWhile pyIsSpace).reverse.dropWhile pyIsSpace).reverse)

/-- One left-to-right pass deleting non-overlapping occurrences of `pat`
(`fuel` bounds the recursion; it is called with the list's length, which
always suffices since every step consumes at least one character). -/
def pyDeleteFuel (pat : List Char) : Nat → List Char → List Char
  | _, [] => []
  | 0, rest => rest
  | Nat.succ fuel, c :: rest =>
    if !pat.isEmpty && pat.isPrefixOf (c :: rest) then
      pyDeleteFuel pat fuel (List.drop (pat.length - 1) rest)
    else
      c :: pyDeleteFuel pat fuel rest

/-- Python `s.replace(pat, "")`: delete every non-overlapping occurrence
of `pat` in a single left-to-right pass. -/
def pyDelete (pat s : String) : String :=
  String.mk (pyDeleteFuel pat.data s.data.length s.data)

/-- Keyword extraction of the fallback path (`LLM.py` line 127):
`user_query.lower().replace("find", "").replace("studies", "").replace("about", "").strip()`. -/
def extract_keywords (user_query : String) : String :=
  pyStrip (pyDelete "about" (pyDelete "studies" (pyDelete "find" (pyLower user_query))))

/-- The fixed WHERE clause of the fallback filter (`LLM.py` line 129). -/
def fallback_where_clause : String :=
  "(s.study_title ILIKE %s OR s.study_abstract ILIKE %s)"

/-- The fallback filter built in the `except json.JSONDecodeError`
branch of `llm_query_to_sql` (`LLM.py` lines 124-131): the fixed clause
plus the wildcarded keyword twice. -/
def fallback_filter (user_query : String) : Json :=
  let keywords := extract_keywords user_query
  Json.obj
    [("where_clause", Json.str fallback_where_clause),
     ("params",
      Json.arr [Json.str ("%" ++ keywords ++ "%"), Json.str ("%" ++ keywords ++ "%")])]

/-- Embeds `llm_query_to_sql` (`LLM.py` lines 69-131) from the remote
call on. `call` is the outcome of the model interaction as seen by the
code: `Except.error ()` means `client.chat.completions.create` itself
raised (there is no try/except around it, so the exception propagates);
`Except.ok none` means the call completed but `json.loads` raised
`JSONDecodeError` on the fence-stripped response text; `Except.ok (some j)`
means the stripped text decoded to the JSON value `j`, which is returned
unchecked. -/
def llm_query_to_sql (user_query : String) (call : Except Unit (Option Json)) :
    Except PyError Json :=
  match call with
  | Except.error _ => Except.error PyError.remoteError
  | Except.ok none => Except.ok (fallback_filter user_query)
  | Except.ok (some result) => Except.ok result

/-- The pair of values `smart_search_studies` hands to
`search_studies_with_sql`: the `custom_sql_where` and `params` arguments
(`LLM.py` lines 158-161), still as the raw values subscripted out of the
model's JSON. -/
structure AccessorCall where
  custom_sql_where : Json
  params : Json

/-- Embeds `smart_search_studies` (`LLM.py` lines 134-163) up to the
accessor boundary: it performs the translation step and the two dict
subscripts (`sql_query['where_clause']` first — already at the print on
line 154 — then `sql_query['params']`) and yields the argument pair
passed to `search_studies_with_sql`; errors of either step propagate to
the caller. The accessor itself is embedded separately below. -/
def smart_search_studies (user_query : String) (call : Except Unit (Option Json)) :
    Except PyError AccessorCall :=
  match llm_query_to_sql user_query call with
  | Except.error e => Except.error e
  | Except.ok sql_query =>
    match pySubscript sql_query "where_clause" with
    | Except.error e => Except.error e
    | Except.ok wc =>
      match pySubscript sql_query "params" with
      | Except.error e => Except.error e
      | Except.ok ps => Except.ok (AccessorCall.mk wc ps)

/-- One row of the SELECT built by `search_studies_with_sql`
(`LLM.py` lines 40-43): the seven selected columns in order. The joined
person columns are nullable (LEFT JOIN). -/
structure StudyRow where
  study_id : Nat
  study_title : String
  study_abstract : String
  pi_name : Option String
  pi_email : Option String
  pi_affiliation : Option String
  lab_person_name : Option String
deriving DecidableEq

/-- Text of the fixed SQL template of `search_studies_with_sql` up to
the substitution point of the WHERE predicate (`LLM.py` lines 39-52). -/
def sqlTemplateHead : String :=
  "\n        SELECT DISTINCT s.study_id, s.study_title, s.study_abstract,\n               sp_pi.name as pi_name, sp_pi.email as pi_email, \n               sp_pi.affiliation as pi_affiliation,\n               sp_lab.name as lab_person_name\n        FROM qiita.study s\n        LEFT JOIN qiita.study_person sp_pi \n            ON s.principal_investigator_id = sp_pi.study_person_id\n        LEFT JOIN qiita.study_person sp_lab \n            ON s.lab_person_id = sp_lab.study_person_id\n        LEFT JOIN qiita.study_artifact sa ON s.study_id = sa.study_id\n        LEFT JOIN qiita.artifact a ON sa.artifact_id = a.artifact_id\n        LEFT JOIN qiita.visibility v ON a.visibility_id = v.visibility_id\n        WHERE "

/-- Text of the fixed SQL template after the WHERE predicate
(`LLM.py` lines 53-54). -/
def sqlTemplateTail : String :=
  "\n        ORDER BY s.study_id\n        "

/-- The SQL text `search_studies_with_sql` builds and hands to
`TRN.add` (`LLM.py` lines 39-56): the clause is interpolated verbatim at
the single substitution point, with `1=1` substituted when the clause is
empty (Python string truthiness). -/
def search_sql (custom_sql_where : String) : String :=
  sqlTemplateHead ++ (if custom_sql_where = "" then "1=1" else custom_sql_where) ++ sqlTemplateTail

/-- The ordering the template's `ORDER BY s.study_id` imposes. -/
def rowLe (a b : StudyRow) : Prop := a.study_id ≤ b.study_id

instance : DecidableRel rowLe := fun a b => Nat.decLe a.study_id b.study_id

instance : IsTotal StudyRow rowLe := IsTotal.mk (fun a b => Nat.le_total a.study_id b.study_id)

instance : IsTrans StudyRow rowLe := IsTrans.mk (fun _ _ _ hab hbc => Nat.le_trans hab hbc)

/-- Modelled from the spec: the relational store executing the SELECT
built by `search_sql` — not code under `src/`. Given the predicate
semantics of the executed SQL text (how the store evaluates the WHERE
predicate with its bound parameters on one candidate row), it returns
the matching rows, deduplicated (`SELECT DISTINCT`) and in ascending
`study_id` order (`ORDER BY s.study_id`). -/
def storeRun (pred : StudyRow → Bool) (db : List StudyRow) : List StudyRow :=
  List.insertionSort rowLe ((db.filter pred).dedup)

/-- The column list `search_studies_with_sql` gives the result DataFrame
(`LLM.py` lines 62-65). -/
def df_columns : List String :=
  ["study_id", "study_title", "study_abstract",
   "pi_name", "pi_email", "pi_affiliation", "lab_person_name"]

/-- Embeds `search_studies_with_sql` (`LLM.py` lines 19-67). `evalWhere`
is the store's predicate semantics for an executed SQL text and bound
parameter list (an external collaborator; the theorems below quantify
over it). The Python `params=None` default becomes the empty list. The
accessor builds the template with the clause interpolated verbatim,
executes it, and returns the rows (the empty result is the empty
DataFrame). -/
def search_studies_with_sql (evalWhere : String → List Json → StudyRow → Bool)
    (db : List StudyRow) (custom_sql_where : String) (params : List Json) : List StudyRow :=
  storeRun (evalWhere (search_sql custom_sql_where) params) db

/-- The allow-listed columns enumerated in the system prompt of
`llm_query_to_sql` (`LLM.py` lines 72-80). -/
def allowed_columns : List String :=
  ["s.study_id", "s.study_title", "s.study_abstract",
   "sp_pi.name", "sp_pi.email", "sp_pi.affiliation", "sp_lab.name", "v.visibility"]

/-- Occurrences of `pat` as a contiguous substring of a character list
(all positions; for the placeholder pattern this coincides with Python's
non-overlapping count since the pattern cannot overlap itself). -/
def countSub (pat : List Char) : List Char → Nat
  | [] => 0
  | c :: rest => (if pat.isPrefixOf (c :: rest) then 1 else 0) + countSub pat rest

/-- Number of `%s` placeholders of a clause (the clauses in the source
and claims never contain a literal escaped percent). -/
def countPlaceholders (s : String) : Nat := countSub ['%', 's'] s.data

/-- Whether `pat` occurs as a contiguous substring. -/
def listContainsSub (pat : List Char) : List Char → Bool
  | [] => pat.isEmpty
  | c :: rest => pat.isPrefixOf (c :: rest) || listContainsSub pat rest

/-- Whether `pat` occurs as a contiguous substring of `s`. -/
def containsSub (pat s : String) : Bool := listContainsSub pat.data s.data

/-- Whether a string holds store-control syntax in the sense of the
spec's injection-safety property: a single or double quote, a semicolon,
or the SQL comment marker. -/
def hasControlSyntax (s : String) : Bool :=
  s.data.contains (Char.ofNat 39) || s.data.contains (Char.ofNat 34) ||
    s.data.contains ';' || listContainsSub ['-', '-'] s.data

/-- Outcome of one HTTP handler invocation: the status set (Tornado's
default 200 when `set_status` is never called) and the JSON body passed
to `self.write(dumps(...))`. -/
structure HttpResponse where
  status : Nat
  body : Json

/-- Failure modes of touching the study registry inside a handler's try
block, matched against the handler's except clauses: the
`QiitaDBUnknownIDError` raised by `Study` for an absent identifier, an
`AttributeError` from attribute access on the study object, or any
other exception, each carrying its `str(e)` message. -/
inductive DbError where
  | unknownID
  | attrError (msg : String)
  | otherError (msg : String)

/-- The study data a handler reads off a loaded `Study` object: `title`,
`status`, and the `info` dict. Modelled from the spec: the `Study` class
of `qiita_db` is not under `src/`; per the spec the lookup boundary
projects whichever of these fields are available, and the handlers'
`hasattr` guards find them present on a successfully loaded study. -/
structure StudyData where
  title : String
  status : String
  info : List (String × Json)

/-- Python `info.get(key, default)` on the study info dict. -/
def infoGet (info : List (String × Json)) (key : String) (default : Json) : Json :=
  match lookupField info key with
  | some v => v
  | none => default

/-- Accumulates the decimal value of a digit list; `none` on the first
non-digit. -/
def digitsToNat (acc : Nat) : List Char → Option Nat
  | [] => some acc
  | c :: rest => if c.isDigit then digitsToNat (acc * 10 + (c.toNat - 48)) rest else none

/-- Python `int(s)` on a string: optional surrounding whitespace, an
optional sign, then at least one decimal digit; `none` models the
`ValueError` it raises otherwise. (PEP 515 underscores and non-ASCII
digits are not modelled; no claim involves them.) -/
def pyParseInt (s : String) : Option Int :=
  match ((s.data.dropWhile pyIsSpace).reverse.dropWhile pyIsSpace).reverse with
  | [] => none
  | c :: rest =>
    if c = '-' then
      match rest with
      | [] => none
      | _ => (digitsToNat 0 rest).map (fun n => -(n : Int))
    else if c = '+' then
      match rest with
      | [] => none
      | _ => (digitsToNat 0 rest).map (fun n => (n : Int))
    else (digitsToNat 0 s.data) |>.map (fun n => (n : Int))

/-- Message of the `ValueError` Python's `int` raises on a non-numeric
string (the `\x27` escapes are the quotes of the repr). -/
def pyIntValueErrorMsg (s : String) : String :=
  "invalid literal for int() with base 10: \x27" ++ s ++ "\x27"

/-- A body of the form the handlers write on every error path: a JSON
object with a single `error` message field. -/
def errorBody (msg : String) : Json := Json.obj [("error", Json.str msg)]

/-- Embeds `StudyAbstractAPIHandler.get`
(`custom_study_api.py` lines 12-52). `registry` models loading
`Study(study_id)` and reading its attributes (the `qiita_db` registry is
an external collaborator here). A `ValueError` from `int(study_id)` hits
the dedicated `except ValueError` clause: status 400. -/
def studyAbstractHandler (registry : Int → Except DbError StudyData)
    (study_id : String) : HttpResponse :=
  match pyParseInt study_id with
  | none => HttpResponse.mk 400 (errorBody "Invalid study ID format")
  | some sid =>
    match registry sid with
    | Except.error DbError.unknownID =>
        HttpResponse.mk 404 (errorBody ("Study " ++ toString sid ++ " not found"))
    | Except.error (DbError.attrError msg) =>
        HttpResponse.mk 500
          (errorBody ("AttributeError: " ++ msg ++ ". Study object may not be fully initialized."))
    | Except.error (DbError.otherError msg) =>
        HttpResponse.mk 500 (errorBody ("Unexpected error: " ++ msg))
    | Except.ok study =>
        HttpResponse.mk 200
          (Json.obj
            [("study_id", Json.num sid),
             ("title", Json.str study.title),
             ("abstract", infoGet study.info "study_abstract" (Json.str "No abstract available")),
             ("status", Json.str study.status)])

/-- The contact sub-object `StudyDetailAPIHandler.get` builds for the PI
or the lab person (`custom_study_api.py` lines 88-103): field-wise `get`
when the value is a dict, otherwise `str(value)` for the name and empty
strings for the rest. `pyStr` models the Python `str` builtin on a
non-dict value (external; the theorems quantify over it). -/
def contactJson (pyStr : Json → String) : Json → Json
  | Json.obj fields =>
      Json.obj
        [("name", infoGet fields "name" (Json.str "")),
         ("email", infoGet fields "email" (Json.str "")),
         ("affiliation", infoGet fields "affiliation" (Json.str ""))]
  | v =>
      Json.obj
        [("name", Json.str (pyStr v)), ("email", Json.str ""), ("affiliation", Json.str "")]

/-- The success body of `StudyDetailAPIHandler.get`
(`custom_study_api.py` lines 78-108). -/
def studyDetailBody (pyStr : Json → String) (sid : Int) (study : StudyData) : Json :=
  Json.obj
    ([("study_id", Json.num sid),
      ("title", Json.str study.title),
      ("abstract", infoGet study.info "study_abstract" (Json.str "No abstract available")),
      ("description", infoGet study.info "study_description" (Json.str "No description available")),
      ("status", Json.str study.status)]
     ++ (match lookupField study.info "principal_investigator" with
         | some v => [("principal_investigator", contactJson pyStr v)]
         | none => [])
     ++ (match lookupField study.info "lab_person" with
         | some v => [("lab_person", contactJson pyStr v)]
         | none => [])
     ++ [("publication_doi", infoGet study.info "publication_doi" (Json.arr [])),
         ("publication_pid", infoGet study.info "publication_pid" (Json.arr [])),
         ("study_alias", infoGet study.info "study_alias" (Json.str ""))])

/-- Embeds `StudyDetailAPIHandler.get`
(`custom_study_api.py` lines 58-121). A `ValueError` from
`int(study_id)` hits its `except ValueError` clause: status 400; an
`AttributeError` has no dedicated clause here and falls into the generic
`except Exception`: status 500. -/
def studyDetailHandler (pyStr : Json → String) (registry : Int → Except DbError StudyData)
    (study_id : String) : HttpResponse :=
  match pyParseInt study_id with
  | none => HttpResponse.mk 400 (errorBody "Invalid study ID format")
  | some sid =>
    match registry sid with
    | Except.error DbError.unknownID =>
        HttpResponse.mk 404 (errorBody ("Study " ++ toString sid ++ " not found"))
    | Except.error (DbError.attrError msg) =>
        HttpResponse.mk 500 (errorBody ("Error retrieving study: " ++ msg))
    | Except.error (DbError.otherError msg) =>
        HttpResponse.mk 500 (errorBody ("Error retrieving study: " ++ msg))
    | Except.ok study => HttpResponse.mk 200 (studyDetailBody pyStr sid study)

/-- Embeds `StudyAuthorsAPIHandler.get`
(`custom_study_api.py` lines 127-161). This handler has no
`except ValueError` clause: the `ValueError` from `int(study_id)` is
caught by its generic `except Exception` clause, producing a 500
response carrying `str(e)`. -/
def studyAuthorsHandler (registry : Int → Except DbError StudyData)
    (study_id : String) : HttpResponse :=
  match pyParseInt study_id with
  | none =>
      HttpResponse.mk 500
        (errorBody ("Error retrieving authors: " ++ pyIntValueErrorMsg study_id))
  | some sid =>
    match registry sid with
    | Except.error DbError.unknownID =>
        HttpResponse.mk 404 (errorBody ("Study " ++ toString sid ++ " not found"))
    | Except.error (DbError.attrError msg) =>
        HttpResponse.mk 500 (errorBody ("Error retrieving authors: " ++ msg))
    | Except.error (DbError.otherError msg) =>
        HttpResponse.mk 500 (errorBody ("Error retrieving authors: " ++ msg))
    | Except.ok study =>
        HttpResponse.mk 200
          (Json.obj
            [("study_id", Json.num sid),
             ("study_title", Json.str study.title),
             ("principal_investigator", infoGet study.info "principal_investigator" (Json.obj [])),
             ("lab_person", infoGet study.info "lab_person" (Json.obj []))])

theorem string_data_append : ∀ (a b : String), (a ++ b).data = a.data ++ b.data
  | String.mk _, String.mk _ => rfl

theorem isPrefixOf_append_self : ∀ (l t : List Char), l.isPrefixOf (l ++ t) = true
  | [], _ => by simp [List.isPrefixOf]
  | a :: l, t => by simp [List.isPrefixOf, isPrefixOf_append_self l t]

theorem listContainsSub_middle (pat post : List Char) (hp : pat ≠ []) :
    ∀ pre, listContainsSub pat (pre ++ (pat ++ post)) = true
  | [] => by
      match pat, hp with
      | p :: ps, _ => simp [listContainsSub, isPrefixOf_append_self]
  | c :: pre => by
      simp [listContainsSub, listContainsSub_middle pat post hp pre]

/-- Any non-empty clause appears verbatim as a substring of the SQL text
the accessor builds around it. -/
theorem containsSub_search_sql (w : String) (h : w ≠ "") :
    containsSub w (search_sql w) = true := by
  have hw : w.data ≠ [] := by
    intro hd
    exact h (by cases w; simp_all)
  unfold containsSub search_sql
  rw [if_neg h, string_data_append, string_data_append, List.append_assoc]
  exact listContainsSub_middle w.data sqlTemplateTail.data hw sqlTemplateHead.data

set_option maxRecDepth 8000 in
/-- C1 (counterexample): a model reply that decodes as a JSON object
whose filter clause holds a semicolon and a comment marker is handed to
the accessor with those store-control characters inside the clause text,
and the SQL text built around that clause carries them too — so it is
not the case that the accessor receives such characters only inside
bound parameter values. -/
theorem C1_clause_control_chars_counterexample :
    smart_search_studies "soil"
      (Except.ok (some (Json.obj
        [("where_clause", Json.str "1=1; DROP TABLE qiita.study; --"),
         ("params", Json.arr [])]))) =
      Except.ok (AccessorCall.mk (Json.str "1=1; DROP TABLE qiita.study; --") (Json.arr [])) ∧
    hasControlSyntax "1=1; DROP TABLE qiita.study; --" = true ∧
    hasControlSyntax (search_sql "1=1; DROP TABLE qiita.study; --") = true :=
  ⟨rfl, by decide, by decide⟩

set_option maxRecDepth 8000 in
/-- C1 (amended): on the fallback path the clause handed to the accessor
is the fixed constant, which is free of quotes, semicolons and comment
markers, and the user query influences only the two bound parameter
values; but when the model reply decodes as a JSON object, its
where-clause and params fields are passed to the accessor verbatim, so
store-control characters in the reply can reach the clause text. -/
theorem C1_fallback_injection_safety (q c : String) (ps : Json) :
    smart_search_studies q (Except.ok none) =
      Except.ok (AccessorCall.mk (Json.str fallback_where_clause)
        (Json.arr [Json.str ("%" ++ extract_keywords q ++ "%"),
                   Json.str ("%" ++ extract_keywords q ++ "%")])) ∧
    hasControlSyntax fallback_where_clause = false ∧
    smart_search_studies q
        (Except.ok (some (Json.obj [("where_clause", Json.str c), ("params", ps)]))) =
      Except.ok (AccessorCall.mk (Json.str c) ps) :=
  ⟨rfl, by decide, rfl⟩

/-- C2 (counterexample): the model reply that decodes to an empty JSON
object (valid JSON, missing both fields) does not produce the fallback
filter — the search step fails with a KeyError that propagates to the
caller. -/
theorem C2_parse_failure_counterexample :
    smart_search_studies "soil" (Except.ok (some (Json.obj []))) =
      Except.error (PyError.keyError "where_clause") ∧
    (Except.error (PyError.keyError "where_clause") :
        Except PyError AccessorCall) ≠
      Except.ok (AccessorCall.mk (Json.str fallback_where_clause)
        (Json.arr [Json.str "%soil%", Json.str "%soil%"])) :=
  ⟨rfl, fun h => Except.noConfusion h⟩

/-- C2 (amended): the fallback filter is used exactly when the model
reply fails JSON decoding; a reply that decodes but is not an object
with both fields is used as-is, and the subsequent field subscripts
raise a KeyError or TypeError that propagates out of the search. -/
theorem C2_fallback_on_decode_failure (q : String) :
    smart_search_studies q (Except.ok none) =
      Except.ok (AccessorCall.mk (Json.str fallback_where_clause)
        (Json.arr [Json.str ("%" ++ extract_keywords q ++ "%"),
                   Json.str ("%" ++ extract_keywords q ++ "%")])) ∧
    smart_search_studies q (Except.ok (some (Json.obj []))) =
      Except.error (PyError.keyError "where_clause") ∧
    smart_search_studies q (Except.ok (some (Json.arr []))) =
      Except.error PyError.typeError ∧
    smart_search_studies q (Except.ok (some (Json.obj [("where_clause", Json.str "1=1")]))) =
      Except.error (PyError.keyError "params") :=
  ⟨rfl, rfl, rfl, rfl⟩

/-- C3 (counterexample): when the remote model call itself fails, the
failure propagates out of the search — the orchestrator does not recover
with the fallback filter. -/
theorem C3_remote_failure_counterexample :
    smart_search_studies "soil" (Except.error ()) = Except.error PyError.remoteError ∧
    (Except.error PyError.remoteError : Except PyError AccessorCall) ≠
      Except.ok (AccessorCall.mk (Json.str fallback_where_clause)
        (Json.arr [Json.str "%soil%", Json.str "%soil%"])) :=
  ⟨rfl, fun h => Except.noConfusion h⟩

/-- C3 (amended): there is no try/except around the remote call, so a
remote-call failure surfaces to the caller of the search as an error;
the fallback is produced only when a completed reply fails JSON
decoding. -/
theorem C3_remote_failure_propagates (q : String) :
    llm_query_to_sql q (Except.error ()) = Except.error PyError.remoteError ∧
    smart_search_studies q (Except.error ()) = Except.error PyError.remoteError ∧
    llm_query_to_sql q (Except.ok none) = Except.ok (fallback_filter q) :=
  ⟨rfl, rfl, rfl⟩

/-- C4 (counterexample): a model reply whose clause carries one
placeholder but whose parameter sequence is empty is passed to the
accessor unchanged — no placeholder-count validation replaces it with
the fallback output. -/
theorem C4_placeholder_mismatch_counterexample :
    smart_search_studies "soil"
      (Except.ok (some (Json.obj
        [("where_clause", Json.str "s.study_id = %s"), ("params", Json.arr [])]))) =
      Except.ok (AccessorCall.mk (Json.str "s.study_id = %s") (Json.arr [])) ∧
    countPlaceholders "s.study_id = %s" = 1 ∧
    ([] : List Json).length = 0 ∧
    countPlaceholders "s.study_id = %s" ≠ ([] : List Json).length :=
  ⟨rfl, by decide, rfl, by decide⟩

/-- C4 (amended): no placeholder-count validation is performed anywhere
between the model reply and the accessor — any decoded object with both
fields is forwarded verbatim, mismatched or not; the fallback
synthesizer's own output does satisfy the invariant, with two
placeholders and two parameters. -/
theorem C4_no_placeholder_validation (q : String) (wc ps : Json) :
    smart_search_studies q
        (Except.ok (some (Json.obj [("where_clause", wc), ("params", ps)]))) =
      Except.ok (AccessorCall.mk wc ps) ∧
    countPlaceholders fallback_where_clause = 2 ∧
    pySubscript (fallback_filter q) "params" =
      Except.ok (Json.arr [Json.str ("%" ++ extract_keywords q ++ "%"),
                           Json.str ("%" ++ extract_keywords q ++ "%")]) :=
  ⟨rfl, by decide, rfl⟩

/-- A concrete study row used by the accessor counterexample. -/
def sampleRow : StudyRow := StudyRow.mk 1 "t" "a" none none none none

set_option maxRecDepth 8000 in
/-- C5 (counterexample): a clause referencing a table outside the
allow-listed column set (it mentions none of the allow-listed columns)
is interpolated verbatim into the SQL text and executed — with a store
that accepts it the accessor returns rows instead of failing. -/
theorem C5_allowlist_counterexample :
    search_studies_with_sql (fun _ _ _ => true) [sampleRow]
        "EXISTS (SELECT 1 FROM qiita.qiita_user)" [] = [sampleRow] ∧
    containsSub "EXISTS (SELECT 1 FROM qiita.qiita_user)"
        (search_sql "EXISTS (SELECT 1 FROM qiita.qiita_user)") = true ∧
    allowed_columns.all
        (fun col => !containsSub col "EXISTS (SELECT 1 FROM qiita.qiita_user)") = true :=
  ⟨by decide, by decide, by decide⟩

set_option maxRecDepth 8000 in
/-- C5 (amended): the accessor performs no allow-list validation and has
no rejection path — every non-empty clause is interpolated verbatim into
the query template and handed to the store, whose own evaluation alone
determines the outcome. -/
theorem C5_clause_interpolated_verbatim (w : String) (h : w ≠ "")
    (evalWhere : String → List Json → StudyRow → Bool) (db : List StudyRow) (ps : List Json) :
    containsSub w (search_sql w) = true ∧
    search_studies_with_sql evalWhere db w ps =
      storeRun (evalWhere (search_sql w) ps) db :=
  ⟨containsSub_search_sql w h, rfl⟩

/-- Witness for C5: the amended theorem applied at a concrete non-empty
clause. -/
theorem C5_clause_interpolated_verbatim_witness :
    ("x=1" : String) ≠ "" ∧ containsSub "x=1" (search_sql "x=1") = true :=
  ⟨by decide,
   (C5_clause_interpolated_verbatim "x=1" (by decide) (fun _ _ _ => true) [] []).1⟩

/-- C6: the fallback synthesizer is a total function whose output always
has the fixed clause with exactly two placeholders and a parameter
sequence of exactly two values, both the wildcarded extracted keyword;
on the empty query the keyword is the empty string, so both parameters
are the bare wildcard. -/
theorem C6_fallback_total_valid (q : String) :
    fallback_filter q =
      Json.obj
        [("where_clause", Json.str fallback_where_clause),
         ("params", Json.arr [Json.str ("%" ++ extract_keywords q ++ "%"),
                              Json.str ("%" ++ extract_keywords q ++ "%")])] ∧
    countPlaceholders fallback_where_clause = 2 ∧
    [Json.str ("%" ++ extract_keywords q ++ "%"),
     Json.str ("%" ++ extract_keywords q ++ "%")].length = 2 ∧
    extract_keywords "" = "" ∧
    "%" ++ extract_keywords "" ++ "%" = "%%" :=
  ⟨rfl, by decide, rfl, by decide, by decide⟩

/-- C7 (counterexample): for the query about the soil microbiome the
fallback stop-word stripping removes only the literal substrings
"studies" and "about", keeping "soil", so the effective fallback
parameters are the wildcarded "soil microbiome", not the claimed
wildcarded "microbiome". -/
theorem C7_example_params_counterexample :
    extract_keywords "studies about soil microbiome" = "soil microbiome" ∧
    smart_search_studies "studies about soil microbiome" (Except.ok none) =
      Except.ok (AccessorCall.mk (Json.str fallback_where_clause)
        (Json.arr [Json.str "%soil microbiome%", Json.str "%soil microbiome%"])) ∧
    ("%soil microbiome%" : String) ≠ "%microbiome%" :=
  ⟨by decide, rfl, by decide⟩

/-- C7 (amended): for the query "studies about soil microbiome" with a
model reply that fails JSON decoding, the effective filter is the
fallback clause with both parameters equal to the wildcarded keyword
"soil microbiome"; if the model call itself fails, the error propagates
instead of producing a fallback filter. -/
theorem C7_fallback_example :
    smart_search_studies "studies about soil microbiome" (Except.ok none) =
      Except.ok (AccessorCall.mk
        (Json.str "(s.study_title ILIKE %s OR s.study_abstract ILIKE %s)")
        (Json.arr [Json.str "%soil microbiome%", Json.str "%soil microbiome%"])) ∧
    smart_search_studies "studies about soil microbiome" (Except.error ()) =
      Except.error PyError.remoteError :=
  ⟨rfl, rfl⟩

/-- C8 (counterexample): the authors handler answers a non-integer study
identifier with a 500 response, not a 400-equivalent invalid-input
response — its except clauses have no ValueError case, so the generic
handler produces the response. -/
theorem C8_authors_invalid_id_counterexample :
    (studyAuthorsHandler (fun _ => Except.error DbError.unknownID) "abc").status = 500 ∧
    (studyAuthorsHandler (fun _ => Except.error DbError.unknownID) "abc").status ≠ 400 :=
  ⟨rfl, by decide⟩

/-- C8 (amended): on a study identifier that is not a valid integer, the
abstract and detail handlers return the structured 400 invalid-input
response, while the authors handler returns a structured 500 response
carrying the ValueError message (still a structured response, not a
raised exception). -/
theorem C8_invalid_id_responses (pyStr : Json → String)
    (registry : Int → Except DbError StudyData) (s : String)
    (h : pyParseInt s = none) :
    studyAbstractHandler registry s =
      HttpResponse.mk 400 (errorBody "Invalid study ID format") ∧
    studyDetailHandler pyStr registry s =
      HttpResponse.mk 400 (errorBody "Invalid study ID format") ∧
    studyAuthorsHandler registry s =
      HttpResponse.mk 500
        (errorBody ("Error retrieving authors: " ++ pyIntValueErrorMsg s)) := by
  unfold studyAbstractHandler studyDetailHandler studyAuthorsHandler
  rw [h]
  exact ⟨rfl, rfl, rfl⟩

/-- Witness for C8: the amended theorem applied at the concrete
identifier "abc" with a concrete registry. -/
theorem C8_invalid_id_responses_witness :
    pyParseInt "abc" = none ∧
    studyAuthorsHandler (fun _ => Except.error DbError.unknownID) "abc" =
      HttpResponse.mk 500
        (errorBody ("Error retrieving authors: " ++ pyIntValueErrorMsg "abc")) :=
  ⟨by decide,
   (C8_invalid_id_responses (fun _ => "") (fun _ => Except.error DbError.unknownID) "abc"
      (by decide)).2.2⟩

/-- C9: for every store semantics, database and filter, the accessor's
result is sorted in ascending study-identifier order (possibly empty),
and the result columns are the fixed seven-column sequence of the
template. -/
theorem C9_result_sorted_fixed_columns
    (evalWhere : String → List Json → StudyRow → Bool) (db : List StudyRow)
    (custom_sql_where : String) (params : List Json) :
    List.Sorted (· ≤ ·)
      ((search_studies_with_sql evalWhere db custom_sql_where params).map
        (fun r => r.study_id)) ∧
    df_columns = ["study_id", "study_title", "study_abstract",
                  "pi_name", "pi_email", "pi_affiliation", "lab_person_name"] :=
  ⟨List.pairwise_map.mpr (List.sorted_insertionSort rowLe _), rfl⟩

/-- C10 (counterexample): "profound" does not contain the character
sequence "find", so the fallback keyword extraction leaves it unchanged
— a query consisting of "profound" contributes "profound", not "pro",
and both parameters are the wildcarded full word. -/
theorem C10_profound_counterexample :
    extract_keywords "profound" = "profound" ∧
    ("profound" : String) ≠ "pro" ∧
    pySubscript (fallback_filter "profound") "params" =
      Except.ok (Json.arr [Json.str "%profound%", Json.str "%profound%"]) :=
  ⟨by decide, by decide, rfl⟩

/-- C10 (amended): the fallback keyword extraction deletes every
occurrence of the literal substrings "find", "studies", "about" from the
lowercased query, including inside longer words ("finding" contributes
"ing"), while words not containing those sequences — "study", and also
"profound", which does not contain "find" — are kept; the result is
trimmed and wrapped in wildcards for both parameters. -/
theorem C10_substring_deletion (q : String) :
    extract_keywords "FIND X" = "x" ∧
    extract_keywords "finding" = "ing" ∧
    extract_keywords "find find" = "" ∧
    extract_keywords "a study x" = "a study x" ∧
    extract_keywords "profound" = "profound" ∧
    pySubscript (fallback_filter q) "params" =
      Except.ok (Json.arr [Json.str ("%" ++ extract_keywords q ++ "%"),
                           Json.str ("%" ++ extract_keywords q ++ "%")]) :=
  ⟨by decide, by decide, by decide, by decide, by decide, rfl⟩
